import Mathlib

/-!
Shallow embedding of `xpra/client/mixins/network_listener.py`
(class `Networklistener`): the connection-admission, hello-request
dispatch and close-timer bookkeeping of the xpra client listener mixin.

Protocol instances are identified by natural numbers.  GLib timer
sources are identified by natural numbers; `timeout_add` hands out
fresh, strictly positive source ids (GLib source ids are nonzero, so
Python truthiness of a stored id coincides with presence).
-/

namespace NetworkListener

/-- Source: `MAX_CONCURRENT_CONNECTIONS = envint("XPRA_MAX_CONCURRENT_CONNECTIONS", 5)`:
the default bound on concurrent pending protocol instances. -/
def MAX_CONCURRENT_CONNECTIONS : Nat := 5

/-- Source: `REQUEST_TIMEOUT = envint("XPRA_CLIENT_REQUEST_TIMEOUT", 10)`: default
close-timer timeout in seconds. -/
def REQUEST_TIMEOUT : Nat := 10

/-- Modelled from the spec: `CONNECTION_LOST` comes from
`xpra.net.protocol.constants`, which is not under src/; the spec names the
inbound tag `connection-lost`. -/
def CONNECTION_LOST : String := "connection-lost"

/-- Modelled from the spec: `GIBBERISH` comes from
`xpra.net.protocol.constants`, which is not under src/; the spec names the
inbound tag `gibberish`. -/
def GIBBERISH : String := "gibberish"

/-- Modelled from the spec: `ConnectionMessage` comes from `xpra.common`,
which is not under src/; the spec names the disconnect reason codes
`protocol-error` and `detach-request`. -/
inductive ConnectionMessage
  | PROTOCOL_ERROR
  | DETACH_REQUEST
deriving DecidableEq, Repr

/-- State of the `Networklistener` mixin fields that the admission and
close paths mutate:
`potential` is `self._potential_protocols` (the pending set, a list of
protocol-instance ids appended in creation order);
`close_timers` is `self._close_timers` (a dict protocol -> timer id,
modelled as an association list with at most one entry per key);
`live` is the set of currently scheduled GLib timeout sources, each
tagged with the source id, the protocol its `close` callback captured,
and its delay in milliseconds;
`next_tid` and `next_proto` supply fresh ids;
`closed_protos` records every protocol on which `proto.close()` was
called, in call order. -/
structure NLState where
  potential : List Nat
  close_timers : List (Nat × Nat)
  live : List (Nat × Nat × Nat)
  next_tid : Nat
  next_proto : Nat
  closed_protos : List Nat
deriving DecidableEq, Repr

/-- Initial mixin state: empty pending set, no timers. -/
def initState : NLState :=
  { potential := []
    close_timers := []
    live := []
    next_tid := 1
    next_proto := 0
    closed_protos := [] }

/-- Lookup in the `_close_timers` dict. -/
def lookupTimer (m : List (Nat × Nat)) (p : Nat) : Option Nat :=
  (m.find? (fun e => e.1 == p)).map (fun e => e.2)

/-- Dict assignment `self._close_timers[proto] = tid`: replaces any entry
for the same key. -/
def setTimer (m : List (Nat × Nat)) (p t : Nat) : List (Nat × Nat) :=
  (p, t) :: m.filter (fun e => e.1 ≠ p)

/-- Dict removal `self._close_timers.pop(proto, None)`. -/
def popTimer (m : List (Nat × Nat)) (p : Nat) : Option Nat × List (Nat × Nat) :=
  (lookupTimer m p, m.filter (fun e => e.1 ≠ p))

/-- Number of live (scheduled, uncancelled) GLib timers whose close
callback references the given protocol instance. -/
def liveTimersFor (st : NLState) (proto : Nat) : Nat :=
  (st.live.filter (fun e => e.2.1 == proto)).length

/-- Observable effects of the accept path (`handle_new_connection`):
either the raw connection is closed (`conn.close()`), or a
`SocketProtocol` is created, appended to the pending set and started. -/
inductive AcceptEffect
  | conn_close
  | protocol_started (proto : Nat)
deriving DecidableEq, Repr

/-- Translation of `make_protocol`: builds a `SocketProtocol` for the connection, appends
it to `self._potential_protocols` and starts it.  Returns the fresh
protocol id. -/
def make_protocol (st : NLState) : NLState × Nat :=
  ({ st with potential := st.potential ++ [st.next_proto]
             next_proto := st.next_proto + 1 },
   st.next_proto)

/-- Translation of `handle_new_connection(socktype, listener, handle)`.  The `accepted`
argument stands for the result of `accept_connection` (`none` when it
returned `None`); for named pipes no accept call is made, the
already-delivered handle is wrapped and `make_protocol` is called
directly, before and without the `MAX_CONCURRENT_CONNECTIONS` check. -/
def handle_new_connection (st : NLState) (socktype : String)
    (accepted : Option Unit) : NLState × List AcceptEffect :=
  if socktype = "named-pipe" then
    let r := make_protocol st
    (r.1, [AcceptEffect.protocol_started r.2])
  else
    match accepted with
    | none => (st, [])
    | some _ =>
      if MAX_CONCURRENT_CONNECTIONS ≤ st.potential.length then
        (st, [AcceptEffect.conn_close])
      else
        let r := make_protocol st
        (r.1, [AcceptEffect.protocol_started r.2])

/-- Translation of `_new_connection(socktype, listener, handle)`: returns `False` (and
does nothing) when `self.exit_code is not None`; otherwise handles the
connection and returns `self.exit_code is None` (the exit code is not
mutated on this path, so this is `true`). -/
def new_connection (st : NLState) (exit_code : Option Int) (socktype : String)
    (accepted : Option Unit) : NLState × List AcceptEffect × Bool :=
  match exit_code with
  | some _ => (st, [], false)
  | none =>
    let r := handle_new_connection st socktype accepted
    (r.1, r.2, true)

/-- The fields of the inbound hello capability mapping that this layer
consumes: `caps.strget("request")` yields `""` when absent, and
`caps.strtupleget("command_request")` yields the empty tuple when
absent. -/
structure Caps where
  request : String
  command_request : List String
deriving DecidableEq, Repr

/-- A decoded inbound packet: its type tag (`str(packet[0])`) and, for
hello packets, the capability fields consumed (`packet[1]`). -/
structure Packet where
  ptype : String
  caps : Caps
deriving DecidableEq, Repr

/-- A value occurring in a reply payload mapping. -/
inductive Val
  | str (s : String)
  | num (n : Nat)
  | resp (code : Nat) (text : String)
deriving DecidableEq, Repr

/-- A reply payload: a mapping with string keys, in construction order. -/
abbrev Payload := List (String × Val)

/-- An action scheduled on the control loop with `idle_add`. -/
inductive IdleAction
  | send_info
  | ui_call (name : String)
  | process_control (args : List String)
deriving DecidableEq, Repr

/-- Observable effects of `handle_hello_request` and of the scheduled
actions it posts: `send_hello d` is `proto.send_now(["hello", d])`,
`send_disconnect msgs cb` is `proto.send_disconnect(msgs, ...)` with
`cb` recording whether a `done_callback` was supplied, and `idle a`
is `idle_add(a)` / `glib.idle_add(a)`. -/
inductive HEffect
  | send_hello (data : Payload)
  | send_disconnect (msgs : List ConnectionMessage) (has_done_callback : Bool)
  | idle (a : IdleAction)
deriving DecidableEq, Repr

/-- External collaborators the mixin calls, held abstract: the
authorization predicate `is_request_allowed` (from `xpra.net.common`,
specialised to one protocol instance), the payload that `send_info`
assembles from `get_info`/`get_network_caps`/session type, the identity
fields (`self.session_name`, `sys.platform`, `os.getpid()`,
`get_machine_id()`), `version_str()`, whether `getattr(self, name)`
finds a UI method, and `self._process_control` which either returns or
raises with a message. -/
structure Env where
  is_request_allowed : String → Bool
  info_payload : Payload
  session_name : String
  platform : String
  pid : Nat
  machine_id : String
  version_str : String
  has_ui_method : String → Bool
  process_control : List String → Except String Unit

/-- Modelled from the spec: `xpra.exit_codes.ExitCode` is not under src/;
the spec fixes the command reply status pair as `(0, "done")` on success,
so `int(ExitCode.OK) = 0`. -/
def ExitCode.OK : Nat := 0

/-- Modelled from the spec: `xpra.exit_codes.ExitCode` is not under src/;
the spec fixes the failure reply status as `1`, so
`int(ExitCode.FAILURE) = 1`. -/
def ExitCode.FAILURE : Nat := 1

/-- Translation of `get_id_info()`: the minimal identity record. -/
def get_id_info (env : Env) : Payload :=
  [("session-type", Val.str "client"),
   ("session-name", Val.str env.session_name),
   ("platform", Val.str env.platform),
   ("pid", Val.num env.pid),
   ("machine-id", Val.str env.machine_id)]

/-- The request names the dispatch in `handle_hello_request` recognises. -/
def knownRequests : List String :=
  ["info", "id", "detach", "version",
   "show-menu", "show-about", "show-session-info",
   "connect_test", "command"]

/-- Translation of `handle_hello_request(proto, request, caps)`: authorization check
followed by the dispatch table; each branch is translated from the
corresponding `if request == ...` branch of the source. -/
def handle_hello_request (env : Env) (request : String) (caps : Caps) :
    List HEffect :=
  if env.is_request_allowed request = false then
    [HEffect.send_disconnect [ConnectionMessage.PROTOCOL_ERROR] false]
  else if request = "info" then
    [HEffect.idle IdleAction.send_info]
  else if request = "id" then
    [HEffect.send_hello (get_id_info env)]
  else if request = "detach" then
    [HEffect.send_disconnect [ConnectionMessage.DETACH_REQUEST] true]
  else if request = "version" then
    [HEffect.send_hello [("version", Val.str env.version_str)]]
  else if request = "show-menu" ∨ request = "show-about" ∨ request = "show-session-info" then
    if env.has_ui_method (request.replace "-" "_") then
      [HEffect.idle (IdleAction.ui_call (request.replace "-" "_")),
       HEffect.send_hello []]
    else
      [HEffect.send_hello [("error", Val.str (request ++ " not found"))]]
  else if request = "connect_test" then
    [HEffect.send_hello []]
  else if request = "command" then
    [HEffect.idle (IdleAction.process_control ("control" :: caps.command_request))]
  else
    [HEffect.send_disconnect [ConnectionMessage.PROTOCOL_ERROR] false]

/-- Runs an action that was posted on the control loop, yielding the
effects it produces when the loop executes it.  `process_control`
translates the `try/except` body: `self._process_control(...)` followed
by `hello_reply({"command_response": (int(code), response)})`, with any
exception caught and turned into the failure pair. -/
def run_idle (env : Env) : IdleAction → List HEffect
  | IdleAction.send_info => [HEffect.send_hello env.info_payload]
  | IdleAction.ui_call _ => []
  | IdleAction.process_control args =>
    match env.process_control args with
    | Except.ok _ =>
      [HEffect.send_hello [("command_response", Val.resp ExitCode.OK "done")]]
    | Except.error e =>
      [HEffect.send_hello [("command_response", Val.resp ExitCode.FAILURE e)]]

/-- Translation of `self.timeout_add(ms, close)` inside `process_network_packet`:
schedules a fresh GLib source whose callback captures `proto`, returns
its id. -/
def timeout_add (st : NLState) (ms : Nat) (proto : Nat) : NLState × Nat :=
  ({ st with live := st.live ++ [(st.next_tid, proto, ms)]
             next_tid := st.next_tid + 1 },
   st.next_tid)

/-- The two trailing lines of `process_network_packet`:
`tid = self.timeout_add(REQUEST_TIMEOUT * 1000, close)` followed by
`self._close_timers[proto] = tid`.  Note that no `source_remove` is
issued for any timer previously recorded for `proto`. -/
def arm (st : NLState) (proto : Nat) : NLState :=
  let r := timeout_add st (REQUEST_TIMEOUT * 1000) proto
  { r.1 with close_timers := setTimer r.1.close_timers proto r.2 }

/-- The local `close()` of `process_network_packet`:
`t = self._close_timers.pop(proto, None)` (the dict loses the entry, and
`t` is the entry's id when one was present); `if t: proto.close()` (the
protocol is closed exactly when an entry was present — timer ids are
nonzero, so truthiness is presence); then
`self._potential_protocols.remove(proto)` with `ValueError` swallowed.
The popped timer id is not passed to `source_remove`, so `live` is
untouched. -/
def closeProto (st : NLState) (proto : Nat) : NLState :=
  { st with
    close_timers := (popTimer st.close_timers proto).2
    closed_protos :=
      if (popTimer st.close_timers proto).1.isSome
      then st.closed_protos ++ [proto]
      else st.closed_protos
    potential := st.potential.erase proto }

/-- Translation of `process_network_packet(proto, packet)`.  The hello branch first runs
`parse_remote_caps` / `enable_compressor_from_caps` /
`enable_encoder_from_caps` (negotiation internal to the protocol object,
with no effect on the mixin state modelled here), then dispatches an
embedded request when `caps.strget("request")` is truthy; the
`CONNECTION_LOST`/`GIBBERISH` branch calls `close()` and returns before
the timer lines; every other branch falls through to the timer lines. -/
def process_network_packet (env : Env) (st : NLState) (proto : Nat)
    (pkt : Packet) : NLState × List HEffect :=
  if pkt.ptype = "hello" then
    let effs :=
      if pkt.caps.request ≠ "" then
        handle_hello_request env pkt.caps.request pkt.caps
      else []
    (arm st proto, effs)
  else if pkt.ptype = CONNECTION_LOST ∨ pkt.ptype = GIBBERISH then
    (closeProto st proto, [])
  else
    (arm st proto,
     [HEffect.send_disconnect [ConnectionMessage.PROTOCOL_ERROR] false])

/-- A fired GLib timeout source: runs the captured `close()` callback and
is removed from the scheduled set (the callback returns `None`, so GLib
does not repeat it).  Firing an id that is no longer scheduled does
nothing. -/
def fire_timer (st : NLState) (tid : Nat) : NLState :=
  match st.live.find? (fun e => e.1 == tid) with
  | none => st
  | some e =>
    closeProto { st with live := st.live.filter (fun x => x.1 ≠ tid) } e.2.1

/-- State touched by `cleanup_sockets`: the mixin state plus
`self.socket_cleanup` (cleanup actions registered by
`add_listen_socket`, appended in registration order) and `self.sockets`
(each socket definition carries its own cleanup action `sdef[-1]`);
actions are identified by numbers. -/
structure ListenState where
  nl : NLState
  socket_cleanup : List Nat
  sockets : List Nat
deriving DecidableEq, Repr

/-- The first loop of `cleanup_sockets`: `ct = dict(self._close_timers);
self._close_timers = {}` then for each `(proto, tid)` in `ct`,
`self.source_remove(tid)` (the source is cancelled) and `proto.close()`
(the protocol is closed, in iteration order). -/
def cancel_close_timers (nl : NLState) : NLState :=
  { nl with
    close_timers := []
    live := nl.live.filter (fun e => ! nl.close_timers.any (fun pt => pt.2 == e.1))
    closed_protos := nl.closed_protos ++ nl.close_timers.map (fun pt => pt.1) }

/-- Translation of `cleanup_sockets()`: cancels the close timers, then empties
`self.socket_cleanup` and `self.sockets` and invokes every cleanup
action, each under `log.trap_error` (a failing action is logged and the
loop continues, so the invocation list does not depend on outcomes).
Returns the new state and the invoked action ids in invocation order:
first the `socket_cleanup` list, iterated front to back, then the
socket definitions' own cleanup actions. -/
def cleanup_sockets (st : ListenState) : ListenState × List Nat :=
  ({ nl := cancel_close_timers st.nl
     socket_cleanup := []
     sockets := [] },
   st.socket_cleanup ++ st.sockets)

/-- Lookup of a key in a reply payload mapping. -/
def lookupVal (d : Payload) (k : String) : Option Val :=
  (d.find? (fun e => e.1 == k)).map (fun e => e.2)

/-- A concrete collaborator environment: every request allowed, every
UI method present, command execution succeeds. -/
def env0 : Env :=
  { is_request_allowed := fun _ => true
    info_payload := []
    session_name := "s"
    platform := "linux"
    pid := 42
    machine_id := "m"
    version_str := "6.0"
    has_ui_method := fun _ => true
    process_control := fun _ => Except.ok () }

/-- A concrete environment whose command execution raises. -/
def envFail : Env :=
  { env0 with process_control := fun _ => Except.error "boom" }

/-- A hello packet carrying no request. -/
def helloPkt : Packet :=
  { ptype := "hello", caps := { request := "", command_request := [] } }

/-- A gibberish packet (malformed stream notification). -/
def gibberishPkt : Packet :=
  { ptype := "gibberish", caps := { request := "", command_request := [] } }

/-- A state with one freshly accepted protocol instance (id 0) in the
pending set and no timer armed yet. -/
def oneProtoState : NLState :=
  { initState with potential := [0], next_proto := 1 }

/-- State `oneProtoState` after processing one hello packet for instance 0:
a close timer is armed. -/
def oneProtoArmed : NLState :=
  (process_network_packet env0 oneProtoState 0 helloPkt).1

/-- A state whose pending set is at the concurrency bound. -/
def fullState : NLState :=
  { initState with potential := [0, 1, 2, 3, 4], next_proto := 5 }

/-- Helper: looking up a key right after a dict assignment yields the
assigned value. -/
lemma lookupTimer_setTimer (m : List (Nat × Nat)) (p t : Nat) :
    lookupTimer (setTimer m p t) p = some t := by
  simp [lookupTimer, setTimer, List.find?]

/-- Helper: a key removed by `pop` (modelled as a filter on the key) is
no longer found. -/
lemma lookupTimer_filter_ne (m : List (Nat × Nat)) (p : Nat) :
    lookupTimer (m.filter (fun e => e.1 ≠ p)) p = none := by
  induction m with
  | nil => rfl
  | cons a l ih =>
    simp only [ne_eq, decide_not] at ih ⊢
    simp only [List.filter_cons]
    by_cases h : a.1 = p
    · simp [h, ih]
    · simp [lookupTimer, List.find?, h, ih]

/-- Helper: after a dict assignment, the only entry for the assigned key
is the assigned pair. -/
lemma setTimer_entries (m : List (Nat × Nat)) (p t : Nat) :
    (setTimer m p t).filter (fun e => e.1 = p) = [(p, t)] := by
  simp only [setTimer, List.filter]
  have : (m.filter (fun e => decide (e.1 ≠ p))).filter (fun e => decide (e.1 = p)) = [] := by
    induction m with
    | nil => rfl
    | cons a l ih =>
      by_cases h : a.1 = p
      · simp [List.filter, h, ih]
      · simp [List.filter, h, ih]
  simp [this]

/-- C1 counterexample.  The claim asserts the admission check applies to
every transport kind, named pipes included, so the pending set never
exceeds `MAX_CONCURRENT_CONNECTIONS`.  With the pending set already at
the bound (5 instances), a named-pipe connection is nevertheless
accepted: `handle_new_connection` takes the `socktype == "named-pipe"`
branch and calls `make_protocol` before the bound check is ever reached,
growing the pending set to 6. -/
theorem c1_counterexample :
    (handle_new_connection fullState "named-pipe" none).2 =
      [AcceptEffect.protocol_started 5] ∧
    (handle_new_connection fullState "named-pipe" none).1.potential.length =
      MAX_CONCURRENT_CONNECTIONS + 1 := by
  decide

/-- C1 (amended): for every transport kind other than named pipes, when
the pending set has reached `MAX_CONCURRENT_CONNECTIONS`, the accepted
connection is closed immediately — the only effect is `conn.close()`, no
protocol instance is created and no packet is exchanged — and the mixin
state (in particular the pending set) is unchanged; named-pipe
connections bypass this admission check entirely. -/
theorem c1_admission (st : NLState) (socktype : String)
    (hnp : socktype ≠ "named-pipe")
    (hfull : MAX_CONCURRENT_CONNECTIONS ≤ st.potential.length) :
    handle_new_connection st socktype (some ()) =
      (st, [AcceptEffect.conn_close]) := by
  simp [handle_new_connection, hnp, hfull]

/-- C1 witness: a TCP connection arriving while five instances are
pending is rejected with only a `conn.close()`. -/
theorem c1_admission_witness :
    handle_new_connection fullState "tcp" (some ()) =
      (fullState, [AcceptEffect.conn_close]) :=
  c1_admission fullState "tcp" (by decide) (by decide)

/-- C10: once the client's exit code is set, `_new_connection` performs
no accept and no protocol setup, leaves the whole mixin state (and so
the pending set) unchanged, and returns `False`, which deregisters the
listener callback. -/
theorem c10_shutdown_ignores_connections (st : NLState) (c : Int)
    (socktype : String) (accepted : Option Unit) :
    new_connection st (some c) socktype accepted = (st, [], false) :=
  rfl

/-- C2 counterexample.  The claim asserts at most one live close timer
per instance, arming disarming the old one first.  After instance 0
receives two hello packets, the `_close_timers` dict holds only the
second timer id, but the first scheduled GLib source was never passed to
`source_remove`: two live timers reference instance 0
simultaneously. -/
theorem c2_counterexample :
    liveTimersFor oneProtoArmed 0 = 1 ∧
    liveTimersFor (process_network_packet env0 oneProtoArmed 0 helloPkt).1 0 = 2 ∧
    ¬ liveTimersFor (process_network_packet env0 oneProtoArmed 0 helloPkt).1 0 ≤ 1 := by
  decide

/-- C2 (amended): arming a close timer for an instance overwrites the
instance's entry in the timer mapping — after arming, the mapping holds
exactly one entry for the instance, carrying the fresh timer id — but it
does not cancel the previously recorded timer: every previously
scheduled timer stays live, so more than one live timer can reference
the same instance. -/
theorem c2_arm_overwrites_without_cancel (st : NLState) (proto : Nat) :
    (arm st proto).close_timers.filter (fun e => e.1 = proto) =
      [(proto, st.next_tid)] ∧
    (arm st proto).live =
      st.live ++ [(st.next_tid, proto, REQUEST_TIMEOUT * 1000)] := by
  refine ⟨?_, ?_⟩
  · simpa [arm, timeout_add] using setTimer_entries st.close_timers proto st.next_tid
  · simp [arm, timeout_add]

/-- C3 counterexample.  The claim asserts that after any close, zero
live timers reference the instance.  Instance 0 has a timer armed (after
a hello); a gibberish packet then closes it: it is removed from the
pending set and from the timer mapping and `proto.close()` runs, yet the
scheduled GLib source was not cancelled — one live timer still
references instance 0. -/
theorem c3_counterexample :
    (process_network_packet env0 oneProtoArmed 0 gibberishPkt).1.potential = [] ∧
    lookupTimer (process_network_packet env0 oneProtoArmed 0 gibberishPkt).1.close_timers 0
      = none ∧
    (process_network_packet env0 oneProtoArmed 0 gibberishPkt).1.closed_protos = [0] ∧
    liveTimersFor (process_network_packet env0 oneProtoArmed 0 gibberishPkt).1 0 ≠ 0 := by
  decide

/-- Helper: field-level description of the `close()` path, shared by the
close-related theorems. -/
lemma closeProto_spec (st : NLState) (proto : Nat) (h : st.potential.Nodup) :
    proto ∉ (closeProto st proto).potential ∧
    lookupTimer (closeProto st proto).close_timers proto = none ∧
    (closeProto st proto).live = st.live := by
  refine ⟨?_, ?_, rfl⟩
  · exact h.not_mem_erase
  · simpa [closeProto, popTimer] using
      lookupTimer_filter_ne st.close_timers proto

/-- C3 (amended): the `close()` path removes the instance from the
pending set and drops its entry from the timer mapping in the same
synchronous step, but it does not cancel the scheduled timer source:
the set of live timers is left untouched, so a previously armed source
can still reference the instance after the close. -/
theorem c3_close_cleanup (st : NLState) (proto : Nat)
    (h : st.potential.Nodup) :
    proto ∉ (closeProto st proto).potential ∧
    lookupTimer (closeProto st proto).close_timers proto = none ∧
    (closeProto st proto).live = st.live :=
  closeProto_spec st proto h

/-- C3 witness: closing the armed instance 0 leaves it outside the
pending set, outside the timer mapping, and leaves the live timer set
unchanged. -/
theorem c3_close_cleanup_witness :
    0 ∉ (closeProto oneProtoArmed 0).potential ∧
    lookupTimer (closeProto oneProtoArmed 0).close_timers 0 = none ∧
    (closeProto oneProtoArmed 0).live = oneProtoArmed.live :=
  c3_close_cleanup oneProtoArmed 0 (by decide)

/-- C4 counterexample.  The claim asserts that gibberish as the very
first packet releases the underlying connection.  With instance 0
freshly accepted (no timer armed yet), a gibberish packet removes it
from the pending set with no reply, but `close()` guards `proto.close()`
behind `if t:` — no timer was armed, so `proto.close()` is never called
and the connection is not released. -/
theorem c4_counterexample :
    (process_network_packet env0 oneProtoState 0 gibberishPkt).2 = [] ∧
    (process_network_packet env0 oneProtoState 0 gibberishPkt).1.potential = [] ∧
    (process_network_packet env0 oneProtoState 0 gibberishPkt).1.closed_protos = [] ∧
    0 ∉ (process_network_packet env0 oneProtoState 0 gibberishPkt).1.closed_protos := by
  decide

/-- C4 (amended): a `connection-lost` or `gibberish` packet makes the
instance close with no reply attempted and no exception: it is removed
from the pending set and from the timer mapping; the underlying
connection, however, is released (`proto.close()`) only when a close
timer had already been armed for the instance — in particular not when
such a packet is the very first one. -/
theorem c4_connection_lost_gibberish (env : Env) (st : NLState) (proto : Nat)
    (pkt : Packet) (h : pkt.ptype = CONNECTION_LOST ∨ pkt.ptype = GIBBERISH)
    (hn : st.potential.Nodup) :
    (process_network_packet env st proto pkt).2 = [] ∧
    proto ∉ (process_network_packet env st proto pkt).1.potential ∧
    lookupTimer (process_network_packet env st proto pkt).1.close_timers proto
      = none ∧
    (process_network_packet env st proto pkt).1.closed_protos =
      (if (lookupTimer st.close_timers proto).isSome
       then st.closed_protos ++ [proto] else st.closed_protos) := by
  have hne : pkt.ptype ≠ "hello" := by
    rcases h with h | h <;> rw [h] <;> decide
  have hstep : process_network_packet env st proto pkt = (closeProto st proto, []) := by
    simp [process_network_packet, hne, h]
  rw [hstep]
  have hc := closeProto_spec st proto hn
  exact ⟨rfl, hc.1, hc.2.1, rfl⟩

/-- C4 witness: gibberish on the armed instance 0 produces no effects,
evicts it from the pending set, clears its timer entry, and releases the
connection because a timer had been armed. -/
theorem c4_witness :
    (process_network_packet env0 oneProtoArmed 0 gibberishPkt).2 = [] ∧
    0 ∉ (process_network_packet env0 oneProtoArmed 0 gibberishPkt).1.potential ∧
    lookupTimer (process_network_packet env0 oneProtoArmed 0 gibberishPkt).1.close_timers 0
      = none ∧
    (process_network_packet env0 oneProtoArmed 0 gibberishPkt).1.closed_protos =
      (if (lookupTimer oneProtoArmed.close_timers 0).isSome
       then oneProtoArmed.closed_protos ++ [0] else oneProtoArmed.closed_protos) :=
  c4_connection_lost_gibberish env0 oneProtoArmed 0 gibberishPkt
    (Or.inr rfl) (by decide)

/-- C5: for every request name carried in a hello packet, if the
authorization predicate denies it or the name is not in the dispatch
table, the handler's only effect is a protocol-error disconnect: no
reply packet is sent, nothing is scheduled, and the disconnect payload
is the bare `PROTOCOL_ERROR` reason code, echoing back neither the
request name nor the denial reason. -/
theorem c5_denied_or_unknown_request (env : Env) (request : String)
    (caps : Caps)
    (h : env.is_request_allowed request = false ∨ request ∉ knownRequests) :
    handle_hello_request env request caps =
      [HEffect.send_disconnect [ConnectionMessage.PROTOCOL_ERROR] false] := by
  rcases h with h | h
  · simp [handle_hello_request, h]
  · simp only [knownRequests, List.mem_cons, List.not_mem_nil, or_false] at h
    push_neg at h
    obtain ⟨h1, h2, h3, h4, h5, h6, h7, h8, h9⟩ := h
    by_cases ha : env.is_request_allowed request = false
    · simp [handle_hello_request, ha]
    · simp [handle_hello_request, ha, h1, h2, h3, h4, h5, h6, h7, h8, h9]

/-- C5 witness: a hello carrying `request="bogus"` (not in the dispatch
table) yields exactly a protocol-error disconnect. -/
theorem c5_witness :
    handle_hello_request env0 "bogus" { request := "bogus", command_request := [] } =
      [HEffect.send_disconnect [ConnectionMessage.PROTOCOL_ERROR] false] :=
  c5_denied_or_unknown_request env0 "bogus"
    { request := "bogus", command_request := [] } (Or.inr (by decide))

/-- C6: a permitted `command` request schedules command execution on the
control loop (prefixing the tuple with `"control"`), and the scheduled
action always replies with a single hello packet: when
`_process_control` returns, the payload maps `command_response` to
`(0, "done")`; when it raises, the exception is caught at the handler
boundary and the payload maps `command_response` to `(1, <error text>)`
— `run_idle` is a total function, so no exception leaves the control
loop callback. -/
theorem c6_command_response (env : Env) (caps : Caps)
    (h : env.is_request_allowed "command" = true) :
    handle_hello_request env "command" caps =
      [HEffect.idle (IdleAction.process_control ("control" :: caps.command_request))] ∧
    (∀ args, env.process_control args = Except.ok () →
      run_idle env (IdleAction.process_control args) =
        [HEffect.send_hello [("command_response", Val.resp ExitCode.OK "done")]]) ∧
    (∀ args e, env.process_control args = Except.error e →
      run_idle env (IdleAction.process_control args) =
        [HEffect.send_hello [("command_response", Val.resp ExitCode.FAILURE e)]]) := by
  refine ⟨?_, ?_, ?_⟩
  · simp [handle_hello_request, h]
  · intro args hok
    simp [run_idle, hok]
  · intro args e herr
    simp [run_idle, herr]

/-- C6 witness: with `command_request=["echo","hi"]`, the dispatch
schedules `control echo hi`; under an execution that succeeds the reply
is `(0, "done")`, and under one that raises `"boom"` the reply is
`(1, "boom")`. -/
theorem c6_witness :
    handle_hello_request env0 "command"
        { request := "command", command_request := ["echo", "hi"] } =
      [HEffect.idle (IdleAction.process_control ["control", "echo", "hi"])] ∧
    run_idle env0 (IdleAction.process_control ["control", "echo", "hi"]) =
      [HEffect.send_hello [("command_response", Val.resp ExitCode.OK "done")]] ∧
    run_idle envFail (IdleAction.process_control ["control", "echo", "hi"]) =
      [HEffect.send_hello [("command_response", Val.resp ExitCode.FAILURE "boom")]] :=
  ⟨(c6_command_response env0
      { request := "command", command_request := ["echo", "hi"] } rfl).1,
   (c6_command_response env0
      { request := "command", command_request := ["echo", "hi"] } rfl).2.1
      ["control", "echo", "hi"] rfl,
   (c6_command_response envFail
      { request := "command", command_request := ["echo", "hi"] } rfl).2.2
      ["control", "echo", "hi"] "boom" rfl⟩

/-- C7: a permitted `id` request is answered synchronously (a direct
`send_now`, not a scheduled action) with a single hello packet whose
payload is exactly the five-key identity record — keys `session-type`,
`session-name`, `platform`, `pid`, `machine-id` in that order and no
others — where `pid` carries the process id and `machine-id` the value
of the machine-id accessor. -/
theorem c7_id_reply (env : Env) (caps : Caps)
    (h : env.is_request_allowed "id" = true) :
    handle_hello_request env "id" caps = [HEffect.send_hello (get_id_info env)] ∧
    (get_id_info env).map Prod.fst =
      ["session-type", "session-name", "platform", "pid", "machine-id"] ∧
    lookupVal (get_id_info env) "pid" = some (Val.num env.pid) ∧
    lookupVal (get_id_info env) "machine-id" = some (Val.str env.machine_id) := by
  refine ⟨?_, rfl, rfl, rfl⟩
  simp [handle_hello_request, h]

/-- C7 witness: the identity reply for the concrete environment. -/
theorem c7_witness :
    handle_hello_request env0 "id" { request := "id", command_request := [] } =
      [HEffect.send_hello (get_id_info env0)] ∧
    (get_id_info env0).map Prod.fst =
      ["session-type", "session-name", "platform", "pid", "machine-id"] ∧
    lookupVal (get_id_info env0) "pid" = some (Val.num env0.pid) ∧
    lookupVal (get_id_info env0) "machine-id" = some (Val.str env0.machine_id) :=
  c7_id_reply env0 { request := "id", command_request := [] } rfl

/-- C8: after a hello packet carrying any request (whatever its name,
`detach` included, and whether it was replied to or rejected), the
mixin unconditionally arms a close timer for the instance: the dispatch
effects are exactly those of `handle_hello_request`, the timer mapping
records a fresh source id for the instance, a source with delay
`REQUEST_TIMEOUT * 1000` milliseconds is scheduled, and the default
`REQUEST_TIMEOUT` is 10 seconds. -/
theorem c8_close_timer_always_armed (env : Env) (st : NLState) (proto : Nat)
    (caps : Caps) (h : caps.request ≠ "") :
    (process_network_packet env st proto { ptype := "hello", caps := caps }).2 =
      handle_hello_request env caps.request caps ∧
    lookupTimer (process_network_packet env st proto
        { ptype := "hello", caps := caps }).1.close_timers proto =
      some st.next_tid ∧
    (st.next_tid, proto, REQUEST_TIMEOUT * 1000) ∈
      (process_network_packet env st proto { ptype := "hello", caps := caps }).1.live ∧
    REQUEST_TIMEOUT = 10 := by
  have hstate : (process_network_packet env st proto
      { ptype := "hello", caps := caps }).1 = arm st proto := by
    simp [process_network_packet]
  refine ⟨?_, ?_, ?_, rfl⟩
  · simp [process_network_packet, h]
  · rw [hstate]
    simpa [arm, timeout_add] using
      lookupTimer_setTimer st.close_timers proto st.next_tid
  · rw [hstate]
    simp [arm, timeout_add]

/-- C8 witness: a hello carrying `request="detach"` still arms the
close timer for instance 0. -/
theorem c8_witness :
    (process_network_packet env0 oneProtoState 0
        { ptype := "hello", caps := { request := "detach", command_request := [] } }).2 =
      handle_hello_request env0 "detach" { request := "detach", command_request := [] } ∧
    lookupTimer (process_network_packet env0 oneProtoState 0
        { ptype := "hello", caps := { request := "detach", command_request := [] } }).1.close_timers 0 =
      some oneProtoState.next_tid ∧
    (oneProtoState.next_tid, 0, REQUEST_TIMEOUT * 1000) ∈
      (process_network_packet env0 oneProtoState 0
        { ptype := "hello", caps := { request := "detach", command_request := [] } }).1.live ∧
    REQUEST_TIMEOUT = 10 :=
  c8_close_timer_always_armed env0 oneProtoState 0
    { request := "detach", command_request := [] } (by decide)

/-- A teardown state with two cleanup actions registered in the order
1 then 2. -/
def c9State : ListenState :=
  { nl := initState, socket_cleanup := [1, 2], sockets := [] }

/-- C9 counterexample.  The claim asserts cleanup actions run in the
reverse of registration order; `cleanup_sockets` iterates
`self.socket_cleanup` front to back, so actions registered as 1 then 2
are invoked as 1 then 2, not 2 then 1. -/
theorem c9_counterexample :
    (cleanup_sockets c9State).2 = [1, 2] ∧
    (cleanup_sockets c9State).2 ≠ c9State.socket_cleanup.reverse := by
  decide

/-- C9 (amended): during teardown every registered cleanup action is
invoked exactly once, in the order the actions were registered (the
`socket_cleanup` list front to back, then the socket definitions' own
cleanup actions), each under `log.trap_error` so an individual failure
is logged and the remaining cleanups still run; invoking the teardown
path a second time invokes no action at all and leaves the state fixed,
so nothing is double-closed and nothing raises. -/
theorem c9_cleanup_order_idempotent (st : ListenState) :
    (cleanup_sockets st).2 = st.socket_cleanup ++ st.sockets ∧
    (cleanup_sockets (cleanup_sockets st).1).2 = [] ∧
    (cleanup_sockets (cleanup_sockets st).1).1 = (cleanup_sockets st).1 := by
  refine ⟨rfl, rfl, ?_⟩
  simp [cleanup_sockets, cancel_close_timers]

end NetworkListener
